import Mathlib

/-!
Shallow embedding of the terraform-provider-looker repository:

* `Lookergo` embeds pkg/lookergo/modelSets.go — the ModelSet entity, its
  JSON wire shape (Go struct tags with omitempty), and the
  ModelSetsResourceOp operations (List delegates to the generic list
  engine; Get/Create/Update/Delete are unimplemented stubs that panic).
* `Provider` embeds the provider package — the declarative schema for
  base_url / client_id / client_secret and the providerConfigure
  control flow (transport setup, OAuth credential exchange, session
  fetch, workspace classification, dev connection, diagnostics).

Calls into lookergo client internals that are not part of the sources
(SetBaseURL, SetOauthCredentials, SetUserAgent, Sessions.Get,
CreateDevConnection, doList) are represented as oracles recording the
outcome each call produces in a given run.
-/

namespace Lookergo

/-- Outcome of a Go call: a normal return, a returned error value, or a
runtime panic with its message. -/
inductive GoOutcome (α : Type) where
  | ok : α → GoOutcome α
  | err : String → GoOutcome α
  | panicked : String → GoOutcome α
  deriving DecidableEq

/-- True exactly when the outcome is a runtime panic. -/
def GoOutcome.isPanicked {α : Type} : GoOutcome α → Bool
  | GoOutcome.panicked _ => true
  | _ => false

/-- True exactly when the outcome is a returned error value. -/
def GoOutcome.isErr {α : Type} : GoOutcome α → Bool
  | GoOutcome.err _ => true
  | _ => false

/-- True exactly when the outcome is a normal return. -/
def GoOutcome.isOk {α : Type} : GoOutcome α → Bool
  | GoOutcome.ok _ => true
  | _ => false

/-- Modelled from the spec: the lookergo Client transport configuration
(base URL and user agent, spec ClientConfig); the Client definition itself
is not among the sources, only its call sites. Per the spec, credentials
are held only long enough to perform the exchange and are not retained. -/
structure Client where
  baseURL : String
  userAgent : String
  deriving DecidableEq

/-- Modelled from the spec: the Response envelope returned with every API
call; its definition is not among the sources. -/
structure Response where
  statusCode : Nat
  deriving DecidableEq

/-- The ModelSet entity from modelSets.go, field for field. -/
structure ModelSet where
  BuiltIn : Bool
  Id : String
  AllAccess : Bool
  Models : List String
  Name : String
  deriving DecidableEq

/-- The zero value of the Go ModelSet struct. -/
def ModelSet.zero : ModelSet := ⟨false, "", false, [], ""⟩

/-- The fragment of JSON needed for the ModelSet wire shape. -/
inductive Json where
  | str : String → Json
  | bool : Bool → Json
  | arr : List Json → Json

/-- Decode a JSON value as a string, if it is one. -/
def Json.asString : Json → Option String
  | Json.str s => some s
  | _ => none

/-- One Go struct tag: the Go field name, its JSON key, and whether the
omitempty option is present. -/
structure FieldTag where
  goName : String
  jsonKey : String
  omitempty : Bool
  deriving DecidableEq

/-- The struct tags of ModelSet, in declaration order, transcribed from
modelSets.go. -/
def modelSetFieldTags : List FieldTag :=
  [⟨"BuiltIn", "built_in", true⟩,
   ⟨"Id", "id", true⟩,
   ⟨"AllAccess", "all_access", true⟩,
   ⟨"Models", "models", true⟩,
   ⟨"Name", "name", true⟩]

/-- JSON encoding of a ModelSet following Go encoding/json with the
omitempty option on every field: a false bool, empty string or empty
slice is omitted; fields appear in struct declaration order. -/
def ModelSet.marshalFields (m : ModelSet) : List (String × Json) :=
  (if m.BuiltIn = true then [(("built_in"), Json.bool m.BuiltIn)] else []) ++
  (if m.Id = "" then [] else [(("id"), Json.str m.Id)]) ++
  (if m.AllAccess = true then [(("all_access"), Json.bool m.AllAccess)] else []) ++
  (if m.Models = [] then [] else [(("models"), Json.arr (m.Models.map Json.str))]) ++
  (if m.Name = "" then [] else [(("name"), Json.str m.Name)])

/-- Look up a key in a decoded JSON object. -/
def lookupField (fields : List (String × Json)) (k : String) : Option Json :=
  (fields.find? (fun p => p.1 == k)).map Prod.snd

/-- JSON decoding of a ModelSet following Go encoding/json: each absent
field keeps its zero value. -/
def ModelSet.unmarshalFields (fields : List (String × Json)) : ModelSet :=
  { BuiltIn := match lookupField fields ("built_in") with
      | some (Json.bool b) => b
      | _ => false
    Id := match lookupField fields ("id") with
      | some (Json.str s) => s
      | _ => ""
    AllAccess := match lookupField fields ("all_access") with
      | some (Json.bool b) => b
      | _ => false
    Models := match lookupField fields ("models") with
      | some (Json.arr xs) => xs.filterMap Json.asString
      | _ => []
    Name := match lookupField fields ("name") with
      | some (Json.str s) => s
      | _ => "" }

/-- The constant path of the model-sets resource, from modelSets.go. -/
def modelSetsBasePath : String := "4.0/model_sets"

/-- The model-sets resource operation set, holding its client pointer. -/
structure ModelSetsResourceOp where
  client : Option Client
  deriving DecidableEq

/-- List delegates to the generic list engine (doList, not among the
sources, passed here as a parameter) against the constant path. -/
def ModelSetsResourceOp.List (s : ModelSetsResourceOp)
    (doList : Unit → Option Client → String → GoOutcome (List ModelSet × Response))
    (ctx : Unit) : GoOutcome (List ModelSet × Response) :=
  doList ctx s.client modelSetsBasePath

/-- Get is an unimplemented stub: it panics. -/
def ModelSetsResourceOp.Get (s : ModelSetsResourceOp) (ctx : Unit)
    (modelSetId : String) : GoOutcome (ModelSet × Response) :=
  GoOutcome.panicked ("implement me")

/-- Create is an unimplemented stub: it panics. -/
def ModelSetsResourceOp.Create (s : ModelSetsResourceOp) (ctx : Unit)
    (modelSet : ModelSet) : GoOutcome (ModelSet × Response) :=
  GoOutcome.panicked ("implement me")

/-- Update is an unimplemented stub: it panics. -/
def ModelSetsResourceOp.Update (s : ModelSetsResourceOp) (ctx : Unit)
    (modelSetId : String) (modelSet : ModelSet) : GoOutcome (ModelSet × Response) :=
  GoOutcome.panicked ("implement me")

/-- Delete is an unimplemented stub: it panics. -/
def ModelSetsResourceOp.Delete (s : ModelSetsResourceOp) (ctx : Unit)
    (modelSetId : String) : GoOutcome Response :=
  GoOutcome.panicked ("implement me")

/-- A sample operation value, as obtained from a client facade. -/
def sampleOp : ModelSetsResourceOp := ⟨none⟩

/-- A fully populated ModelSet, used to exercise the wire shape. -/
def fullModelSet : ModelSet := ⟨true, "x", true, [("m1")], "n"⟩

end Lookergo

namespace Provider

open Lookergo

/-- One entry of the declarative provider schema, with the attributes the
New constructor sets: the Optional and Sensitive flags and the
EnvDefaultFunc data (environment variable name plus fallback default). -/
structure SchemaEntry where
  optional : Bool
  sensitive : Bool
  envVar : Option String
  fallback : Option String
  deriving DecidableEq

/-- Semantics of schema.EnvDefaultFunc: the value of the environment
variable when present, otherwise the given default. -/
def envDefaultFunc (varName : String) (fallback : Option String)
    (env : String → Option String) : Option String :=
  match env varName with
  | some v => some v
  | none => fallback

/-- Resolve a schema entry default the way the plugin SDK does: apply
its EnvDefaultFunc when one is set. -/
def SchemaEntry.resolveDefault (e : SchemaEntry)
    (env : String → Option String) : Option String :=
  match e.envVar with
  | some k => envDefaultFunc k e.fallback env
  | none => e.fallback

/-- The base_url schema entry from New. -/
def baseUrlSchema : SchemaEntry := ⟨true, false, some ("LOOKER_BASE_URL"), none⟩

/-- The client_id schema entry from New. -/
def clientIdSchema : SchemaEntry := ⟨true, false, some ("LOOKER_API_CLIENT_ID"), none⟩

/-- The client_secret schema entry from New, the only one marked
Sensitive. -/
def clientSecretSchema : SchemaEntry := ⟨true, true, some ("LOOKER_API_CLIENT_SECRET"), none⟩

/-- The provider configuration schema assembled by New. -/
def providerSchema : List (String × SchemaEntry) :=
  [(("base_url"), baseUrlSchema),
   (("client_id"), clientIdSchema),
   (("client_secret"), clientSecretSchema)]

/-- The session descriptor returned by the sessions endpoint. -/
structure Session where
  workspaceId : String
  deriving DecidableEq

/-- The provider Workspace enumeration. -/
inductive Workspace where
  | WorkspaceProduction
  | WorkspaceDev
  deriving DecidableEq

/-- The provider Config record: the configured API client and the
classified workspace. -/
structure Config where
  Api : Option Client
  Workspace : Provider.Workspace
  deriving DecidableEq

/-- Diagnostic severity from the plugin SDK. -/
inductive Severity where
  | error
  | warning
  deriving DecidableEq

/-- One diagnostic as appended by providerConfigure. -/
structure Diagnostic where
  severity : Severity
  summary : String
  detail : String
  deriving DecidableEq

/-- Build an error diagnostic the way every branch of providerConfigure
does. -/
def errDiag (summary detail : String) : Diagnostic :=
  ⟨Severity.error, summary, detail⟩

/-- The setup steps providerConfigure can attempt, in program order. -/
inductive Step where
  | setBaseURL
  | setOauthCredentials
  | setUserAgent
  | sessionsGet
  | classifyWorkspace
  | createDevConnection
  deriving DecidableEq

/-- The configuration values read from the resource data, plus the
connection info used by the first debug log line. -/
structure ResourceData where
  connInfo : String
  base_url : String
  client_id : String
  client_secret : String
  deriving DecidableEq

/-- Modelled from the spec: outcomes of the five lookergo client calls
providerConfigure makes (SetBaseURL, SetOauthCredentials, SetUserAgent,
Sessions.Get, CreateDevConnection); their implementations are not among
the sources, so each is an oracle giving the result the lookergo layer
returns in this run. none means success; some e a returned error e. The
dev-connection result carries the printable representations of the dev
client and dev session; per the spec, credentials are held only long
enough to perform the exchange, so neither representation retains the
client secret. -/
structure LookerApi where
  setBaseURLResult : String → Option String
  setOauthResult : String → String → Option String
  setUserAgentResult : String → Option String
  sessionsGetResult : Except String Session
  createDevConnectionResult : Except String (String × String)

/-- The user agent string p.UserAgent builds for this provider. -/
def userAgentOf (version : String) : String :=
  "terraform-provider-looker/" ++ version

/-- Everything observable about one run of providerConfigure: the
returned configuration (none models the nil interface), the returned
diagnostics, the lookergo calls attempted in order, and the emitted
output (tflog debug lines and the fmt.Printf line), in order. -/
structure ConfigureResult where
  result : Option Config
  diags : List Diagnostic
  trace : List Step
  output : List String
  deriving DecidableEq

/-- providerConfigure, line for line: two debug logs, then SetBaseURL,
SetOauthCredentials, SetUserAgent, Sessions.Get, the workspace switch,
CreateDevConnection and the Printf, each failure returning nil plus one
error diagnostic immediately. -/
def providerConfigure (api : LookerApi) (d : ResourceData)
    (version : String) : ConfigureResult :=
  let out0 : List String :=
    [("Configure provider conninfo=") ++ d.connInfo ++ (" schema=provider-schema"),
     ("Provider config client_id=") ++ d.client_id]
  let ua := userAgentOf version
  match api.setBaseURLResult d.base_url with
  | some e =>
      ⟨none,
       [errDiag ("Unable to set looker API endpoint") (("Err: ") ++ e)],
       [Step.setBaseURL], out0⟩
  | none =>
    match api.setOauthResult d.client_id d.client_secret with
    | some e =>
        ⟨none,
         [errDiag ("Unable to set looker API client_id/client_secret") (("Err: ") ++ e)],
         [Step.setBaseURL, Step.setOauthCredentials], out0⟩
    | none =>
      match api.setUserAgentResult ua with
      | some e =>
          ⟨none,
           [errDiag ("Unable to set looker API user-agent") (("Err: ") ++ e)],
           [Step.setBaseURL, Step.setOauthCredentials, Step.setUserAgent], out0⟩
      | none =>
        match api.sessionsGetResult with
        | Except.error e =>
            ⟨none,
             [errDiag ("Unable to create Looker client")
               (("Unable to authenticate user for authenticated Looker client: ") ++ e)],
             [Step.setBaseURL, Step.setOauthCredentials, Step.setUserAgent,
              Step.sessionsGet], out0⟩
        | Except.ok session =>
          let client : Client := ⟨d.base_url, ua⟩
          let config? : Option Config :=
            if session.workspaceId = "production" then
              some ⟨some client, Workspace.WorkspaceProduction⟩
            else if session.workspaceId = "dev" then
              some ⟨some client, Workspace.WorkspaceDev⟩
            else none
          match config? with
          | none =>
              ⟨none,
               [errDiag ("Session Workspace ID is nome of production/dev")
                 ("Unable to find workspace ID in /session call")],
               [Step.setBaseURL, Step.setOauthCredentials, Step.setUserAgent,
                Step.sessionsGet, Step.classifyWorkspace], out0⟩
          | some config =>
            match api.createDevConnectionResult with
            | Except.error e =>
                ⟨none,
                 [errDiag ("Unable to create Looker client")
                   (("Unable to authenticate user for authenticated Looker client: ") ++ e)],
                 [Step.setBaseURL, Step.setOauthCredentials, Step.setUserAgent,
                  Step.sessionsGet, Step.classifyWorkspace, Step.createDevConnection], out0⟩
            | Except.ok dc =>
                ⟨some config, [],
                 [Step.setBaseURL, Step.setOauthCredentials, Step.setUserAgent,
                  Step.sessionsGet, Step.classifyWorkspace, Step.createDevConnection],
                 out0 ++ [("dc: ") ++ dc.1 ++ (" ds: ") ++ dc.2]⟩

/-- Sample resource data for concrete runs. -/
def dW : ResourceData := ⟨"conn", "https://example.com/api/", "cid", "csecret"⟩

/-- An oracle under which every lookergo call succeeds and the session
is in the production workspace. -/
def apiOkBase : LookerApi :=
  { setBaseURLResult := fun _ => none
    setOauthResult := fun _ _ => none
    setUserAgentResult := fun _ => none
    sessionsGetResult := Except.ok ⟨"production"⟩
    createDevConnectionResult := Except.ok (("devc"), ("devs")) }

/-- An oracle whose session has an unrecognized workspace. -/
def apiUnknownWs : LookerApi :=
  { apiOkBase with sessionsGetResult := Except.ok ⟨"staging"⟩ }

/-- An oracle under which only CreateDevConnection fails. -/
def apiDevFail : LookerApi :=
  { apiOkBase with createDevConnectionResult := Except.error ("boom") }

/-- An oracle under which SetBaseURL fails. -/
def apiBadBase : LookerApi :=
  { apiOkBase with setBaseURLResult := fun _ => some ("bad url") }

/-- An oracle under which SetOauthCredentials fails. -/
def apiBadOauth : LookerApi :=
  { apiOkBase with setOauthResult := fun _ _ => some ("bad creds") }

/-- An oracle under which SetUserAgent fails. -/
def apiBadUa : LookerApi :=
  { apiOkBase with setUserAgentResult := fun _ => some ("bad ua") }

/-- An oracle under which Sessions.Get fails. -/
def apiBadSession : LookerApi :=
  { apiOkBase with sessionsGetResult := Except.error ("no session") }

/-- The configuration built by a fully successful run against apiOkBase
and dW. -/
def cfgOkW : Config :=
  ⟨some ⟨dW.base_url, userAgentOf ("1.0")⟩, Workspace.WorkspaceProduction⟩

end Provider

/-- C1 counterexample: at the concrete operation value and input id 1,
ModelSetsResourceOp.Get, Create, Update and Delete each end in a runtime
panic and none of them returns an error value, so the claim that they
return a distinct Unimplemented error and never panic fails on the code. -/
theorem modelSets_unimplemented_counterexample :
    (Lookergo.sampleOp.Get () ("1")).isPanicked = true ∧
    (Lookergo.sampleOp.Get () ("1")).isErr = false ∧
    (Lookergo.sampleOp.Create () Lookergo.ModelSet.zero).isPanicked = true ∧
    (Lookergo.sampleOp.Create () Lookergo.ModelSet.zero).isErr = false ∧
    (Lookergo.sampleOp.Update () ("1") Lookergo.ModelSet.zero).isPanicked = true ∧
    (Lookergo.sampleOp.Update () ("1") Lookergo.ModelSet.zero).isErr = false ∧
    (Lookergo.sampleOp.Delete () ("1")).isPanicked = true ∧
    (Lookergo.sampleOp.Delete () ("1")).isErr = false :=
  ⟨rfl, rfl, rfl, rfl, rfl, rfl, rfl, rfl⟩

/-- C1 (amended): every call to ModelSetsResourceOp.Get, Create, Update
or Delete is an explicit unimplemented stub: it panics with the distinct
message implement me and never returns success, so it never silently
no-ops; it does not, however, return an Unimplemented error value. -/
theorem modelSets_unimplemented_panics (s : Lookergo.ModelSetsResourceOp)
    (ctx : Unit) (modelSetId : String) (m : Lookergo.ModelSet) :
    s.Get ctx modelSetId = Lookergo.GoOutcome.panicked ("implement me") ∧
    s.Create ctx m = Lookergo.GoOutcome.panicked ("implement me") ∧
    s.Update ctx modelSetId m = Lookergo.GoOutcome.panicked ("implement me") ∧
    s.Delete ctx modelSetId = Lookergo.GoOutcome.panicked ("implement me") ∧
    (s.Get ctx modelSetId).isOk = false ∧
    (s.Create ctx m).isOk = false ∧
    (s.Update ctx modelSetId m).isOk = false ∧
    (s.Delete ctx modelSetId).isOk = false :=
  ⟨rfl, rfl, rfl, rfl, rfl, rfl, rfl, rfl⟩

/-- C5: ModelSetsResourceOp.List delegates to the generic list engine
with its own client and the constant path 4.0/model_sets, whatever the
context and client; that path carries the version segment 4.0/, so the
versioned path is supplied by the resource layer, not the base URL. -/
theorem modelSets_list_versioned_path (s : Lookergo.ModelSetsResourceOp)
    (doList : Unit → Option Lookergo.Client → String →
      Lookergo.GoOutcome (List Lookergo.ModelSet × Lookergo.Response))
    (ctx : Unit) :
    s.List doList ctx = doList ctx s.client Lookergo.modelSetsBasePath ∧
    Lookergo.modelSetsBasePath = "4.0/model_sets" ∧
    ∃ rest, Lookergo.modelSetsBasePath = ("4.0/") ++ rest :=
  ⟨rfl, rfl, ⟨("model_sets"), rfl⟩⟩

/-- C6: base_url, client_id and client_secret are each optional in the
provider schema, and each resolves its default from the matching
environment variable (LOOKER_BASE_URL, LOOKER_API_CLIENT_ID,
LOOKER_API_CLIENT_SECRET), yielding none when the variable is absent
because the configured fallback default is nil. -/
theorem provider_schema_env_fallback (env : String → Option String) :
    Provider.baseUrlSchema.optional = true ∧
    Provider.clientIdSchema.optional = true ∧
    Provider.clientSecretSchema.optional = true ∧
    Provider.baseUrlSchema.resolveDefault env = env ("LOOKER_BASE_URL") ∧
    Provider.clientIdSchema.resolveDefault env = env ("LOOKER_API_CLIENT_ID") ∧
    Provider.clientSecretSchema.resolveDefault env = env ("LOOKER_API_CLIENT_SECRET") := by
  have hgen : ∀ k, Provider.envDefaultFunc k none env = env k := by
    intro k
    unfold Provider.envDefaultFunc
    cases env k <;> rfl
  exact ⟨rfl, rfl, rfl, hgen _, hgen _, hgen _⟩

/-- C2: whenever the sessions endpoint reports a workspace identifier
that is neither production nor dev, providerConfigure returns a nil
configuration and a non-empty error diagnostic: no unknown workspace
value is ever silently accepted as a default. -/
theorem providerConfigure_unknown_workspace_fatal (api : Provider.LookerApi)
    (d : Provider.ResourceData) (v : String) (s : Provider.Session)
    (hs : api.sessionsGetResult = Except.ok s)
    (hp : s.workspaceId ≠ "production")
    (hd : s.workspaceId ≠ "dev") :
    (Provider.providerConfigure api d v).result = none ∧
    (Provider.providerConfigure api d v).diags ≠ [] := by
  cases hb : api.setBaseURLResult d.base_url with
  | some e => simp [Provider.providerConfigure, hb]
  | none =>
    cases ho : api.setOauthResult d.client_id d.client_secret with
    | some e => simp [Provider.providerConfigure, hb, ho]
    | none =>
      cases hu : api.setUserAgentResult (Provider.userAgentOf v) with
      | some e => simp [Provider.providerConfigure, hb, ho, hu]
      | none => simp [Provider.providerConfigure, hb, ho, hu, hs, hp, hd]

/-- C2 witness: at the concrete oracle whose session workspace is
staging, providerConfigure returns no configuration and a diagnostic. -/
theorem providerConfigure_unknown_workspace_fatal_witness :
    (Provider.providerConfigure Provider.apiUnknownWs Provider.dW ("1.0")).result = none ∧
    (Provider.providerConfigure Provider.apiUnknownWs Provider.dW ("1.0")).diags ≠ [] :=
  providerConfigure_unknown_workspace_fatal Provider.apiUnknownWs Provider.dW ("1.0")
    ⟨("staging")⟩ rfl (by decide) (by decide)

/-- C9: whenever providerConfigure returns a configuration, its Api
client is non-nil and its Workspace is exactly WorkspaceProduction when
the session workspace string is production and exactly WorkspaceDev when
it is dev. -/
theorem providerConfigure_success_invariant (api : Provider.LookerApi)
    (d : Provider.ResourceData) (v : String) (cfg : Provider.Config)
    (h : (Provider.providerConfigure api d v).result = some cfg) :
    cfg.Api.isSome = true ∧
    ∃ s, api.sessionsGetResult = Except.ok s ∧
      ((s.workspaceId = "production" ∧ cfg.Workspace = Provider.Workspace.WorkspaceProduction) ∨
       (s.workspaceId = "dev" ∧ cfg.Workspace = Provider.Workspace.WorkspaceDev)) := by
  cases hb : api.setBaseURLResult d.base_url with
  | some e => simp [Provider.providerConfigure, hb] at h
  | none =>
  cases ho : api.setOauthResult d.client_id d.client_secret with
  | some e => simp [Provider.providerConfigure, hb, ho] at h
  | none =>
  cases hu : api.setUserAgentResult (Provider.userAgentOf v) with
  | some e => simp [Provider.providerConfigure, hb, ho, hu] at h
  | none =>
  cases hsess : api.sessionsGetResult with
  | error e => simp [Provider.providerConfigure, hb, ho, hu, hsess] at h
  | ok s =>
  cases hdev : api.createDevConnectionResult with
  | error e =>
    by_cases hp : s.workspaceId = "production"
    · simp [Provider.providerConfigure, hb, ho, hu, hsess, hdev, hp] at h
    · by_cases hd : s.workspaceId = "dev"
      · simp [Provider.providerConfigure, hb, ho, hu, hsess, hdev, hp, hd] at h
      · simp [Provider.providerConfigure, hb, ho, hu, hsess, hdev, hp, hd] at h
  | ok dc =>
    by_cases hp : s.workspaceId = "production"
    · simp [Provider.providerConfigure, hb, ho, hu, hsess, hdev, hp] at h
      refine ⟨?_, ⟨s, rfl, Or.inl ⟨hp, ?_⟩⟩⟩ <;> simp [← h]
    · by_cases hd : s.workspaceId = "dev"
      · simp [Provider.providerConfigure, hb, ho, hu, hsess, hdev, hp, hd] at h
        refine ⟨?_, ⟨s, rfl, Or.inr ⟨hd, ?_⟩⟩⟩ <;> simp [← h]
      · simp [Provider.providerConfigure, hb, ho, hu, hsess, hdev, hp, hd] at h

/-- C9 witness: a fully successful concrete run returns cfgOkW, whose
Api is non-nil and whose Workspace is WorkspaceProduction. -/
theorem providerConfigure_success_invariant_witness :
    Provider.cfgOkW.Api.isSome = true ∧
    ∃ s, Provider.apiOkBase.sessionsGetResult = Except.ok s ∧
      ((s.workspaceId = "production" ∧
        Provider.cfgOkW.Workspace = Provider.Workspace.WorkspaceProduction) ∨
       (s.workspaceId = "dev" ∧
        Provider.cfgOkW.Workspace = Provider.Workspace.WorkspaceDev)) :=
  providerConfigure_success_invariant Provider.apiOkBase Provider.dW ("1.0")
    Provider.cfgOkW rfl

/-- C4: each setup step of providerConfigure is fatal on failure: when
SetBaseURL, SetOauthCredentials, SetUserAgent, Sessions.Get or the
workspace classification fails, the run returns a nil configuration with
a non-empty diagnostic and its call trace stops at the failing step, so
no later setup step or resource operation is attempted. -/
theorem providerConfigure_fail_fast (api : Provider.LookerApi)
    (d : Provider.ResourceData) (v : String) :
    (∀ e, api.setBaseURLResult d.base_url = some e →
      (Provider.providerConfigure api d v).result = none ∧
      (Provider.providerConfigure api d v).diags ≠ [] ∧
      (Provider.providerConfigure api d v).trace = [Provider.Step.setBaseURL]) ∧
    (∀ e, api.setBaseURLResult d.base_url = none →
      api.setOauthResult d.client_id d.client_secret = some e →
      (Provider.providerConfigure api d v).result = none ∧
      (Provider.providerConfigure api d v).diags ≠ [] ∧
      (Provider.providerConfigure api d v).trace =
        [Provider.Step.setBaseURL, Provider.Step.setOauthCredentials]) ∧
    (∀ e, api.setBaseURLResult d.base_url = none →
      api.setOauthResult d.client_id d.client_secret = none →
      api.setUserAgentResult (Provider.userAgentOf v) = some e →
      (Provider.providerConfigure api d v).result = none ∧
      (Provider.providerConfigure api d v).diags ≠ [] ∧
      (Provider.providerConfigure api d v).trace =
        [Provider.Step.setBaseURL, Provider.Step.setOauthCredentials,
         Provider.Step.setUserAgent]) ∧
    (∀ e, api.setBaseURLResult d.base_url = none →
      api.setOauthResult d.client_id d.client_secret = none →
      api.setUserAgentResult (Provider.userAgentOf v) = none →
      api.sessionsGetResult = Except.error e →
      (Provider.providerConfigure api d v).result = none ∧
      (Provider.providerConfigure api d v).diags ≠ [] ∧
      (Provider.providerConfigure api d v).trace =
        [Provider.Step.setBaseURL, Provider.Step.setOauthCredentials,
         Provider.Step.setUserAgent, Provider.Step.sessionsGet]) ∧
    (∀ s, api.setBaseURLResult d.base_url = none →
      api.setOauthResult d.client_id d.client_secret = none →
      api.setUserAgentResult (Provider.userAgentOf v) = none →
      api.sessionsGetResult = Except.ok s →
      s.workspaceId ≠ "production" → s.workspaceId ≠ "dev" →
      (Provider.providerConfigure api d v).result = none ∧
      (Provider.providerConfigure api d v).diags ≠ [] ∧
      (Provider.providerConfigure api d v).trace =
        [Provider.Step.setBaseURL, Provider.Step.setOauthCredentials,
         Provider.Step.setUserAgent, Provider.Step.sessionsGet,
         Provider.Step.classifyWorkspace]) := by
  refine ⟨?_, ?_, ?_, ?_, ?_⟩
  · intro e hb
    simp [Provider.providerConfigure, hb]
  · intro e hb ho
    simp [Provider.providerConfigure, hb, ho]
  · intro e hb ho hu
    simp [Provider.providerConfigure, hb, ho, hu]
  · intro e hb ho hu hs
    simp [Provider.providerConfigure, hb, ho, hu, hs]
  · intro s hb ho hu hs hp hd
    simp [Provider.providerConfigure, hb, ho, hu, hs, hp, hd]

/-- C4 witness: for each of the five concrete failing oracles, the run
stops at the failing step. -/
theorem providerConfigure_fail_fast_witness :
    (Provider.providerConfigure Provider.apiBadBase Provider.dW ("1.0")).trace =
      [Provider.Step.setBaseURL] ∧
    (Provider.providerConfigure Provider.apiBadOauth Provider.dW ("1.0")).trace =
      [Provider.Step.setBaseURL, Provider.Step.setOauthCredentials] ∧
    (Provider.providerConfigure Provider.apiBadUa Provider.dW ("1.0")).trace =
      [Provider.Step.setBaseURL, Provider.Step.setOauthCredentials,
       Provider.Step.setUserAgent] ∧
    (Provider.providerConfigure Provider.apiBadSession Provider.dW ("1.0")).trace =
      [Provider.Step.setBaseURL, Provider.Step.setOauthCredentials,
       Provider.Step.setUserAgent, Provider.Step.sessionsGet] ∧
    (Provider.providerConfigure Provider.apiUnknownWs Provider.dW ("1.0")).result = none :=
  ⟨((providerConfigure_fail_fast Provider.apiBadBase Provider.dW ("1.0")).1
      ("bad url") rfl).2.2,
   ((providerConfigure_fail_fast Provider.apiBadOauth Provider.dW ("1.0")).2.1
      ("bad creds") rfl rfl).2.2,
   ((providerConfigure_fail_fast Provider.apiBadUa Provider.dW ("1.0")).2.2.1
      ("bad ua") rfl rfl rfl).2.2,
   ((providerConfigure_fail_fast Provider.apiBadSession Provider.dW ("1.0")).2.2.2.1
      ("no session") rfl rfl rfl rfl).2.2,
   ((providerConfigure_fail_fast Provider.apiUnknownWs Provider.dW ("1.0")).2.2.2.2
      ⟨("staging")⟩ rfl rfl rfl rfl (by decide) (by decide)).1⟩

/-- C3 counterexample: at the concrete run whose primary session is
established in the production workspace and whose CreateDevConnection
fails, providerConfigure returns a nil configuration with an error
diagnostic, so the already-built primary client and workspace
configuration are not returned and primary-workspace operations are
blocked, contrary to the claim. -/
theorem dev_connection_failure_blocks_counterexample :
    Provider.apiDevFail.sessionsGetResult = Except.ok ⟨("production")⟩ ∧
    Provider.apiDevFail.createDevConnectionResult = Except.error ("boom") ∧
    (Provider.providerConfigure Provider.apiDevFail Provider.dW ("1.0")).result = none ∧
    (Provider.providerConfigure Provider.apiDevFail Provider.dW ("1.0")).diags ≠ [] := by
  refine ⟨rfl, rfl, rfl, ?_⟩
  simp [Provider.providerConfigure, Provider.apiDevFail, Provider.apiOkBase, Provider.dW]

/-- C3 (amended): when the primary session has been established in a
recognized workspace and CreateDevConnection fails, providerConfigure
reports the dev-session failure as an error diagnostic and returns a nil
configuration, so the failure does block provider configuration; it
performs no rollback of the primary session, though: the only calls made
are the six setup steps, with no invalidation action. -/
theorem dev_connection_failure_fatal_no_rollback (api : Provider.LookerApi)
    (d : Provider.ResourceData) (v : String) (s : Provider.Session) (e : String)
    (hb : api.setBaseURLResult d.base_url = none)
    (ho : api.setOauthResult d.client_id d.client_secret = none)
    (hu : api.setUserAgentResult (Provider.userAgentOf v) = none)
    (hs : api.sessionsGetResult = Except.ok s)
    (hw : s.workspaceId = "production" ∨ s.workspaceId = "dev")
    (he : api.createDevConnectionResult = Except.error e) :
    (Provider.providerConfigure api d v).result = none ∧
    (Provider.providerConfigure api d v).diags =
      [Provider.errDiag ("Unable to create Looker client")
        (("Unable to authenticate user for authenticated Looker client: ") ++ e)] ∧
    (Provider.providerConfigure api d v).trace =
      [Provider.Step.setBaseURL, Provider.Step.setOauthCredentials,
       Provider.Step.setUserAgent, Provider.Step.sessionsGet,
       Provider.Step.classifyWorkspace, Provider.Step.createDevConnection] := by
  rcases hw with hp | hd
  · simp [Provider.providerConfigure, hb, ho, hu, hs, he, hp]
  · simp [Provider.providerConfigure, hb, ho, hu, hs, he, hd]

/-- C3 witness: the amended statement at the concrete run where only
CreateDevConnection fails. -/
theorem dev_connection_failure_fatal_no_rollback_witness :
    (Provider.providerConfigure Provider.apiDevFail Provider.dW ("1.0")).result = none ∧
    (Provider.providerConfigure Provider.apiDevFail Provider.dW ("1.0")).diags =
      [Provider.errDiag ("Unable to create Looker client")
        (("Unable to authenticate user for authenticated Looker client: ") ++ ("boom"))] ∧
    (Provider.providerConfigure Provider.apiDevFail Provider.dW ("1.0")).trace =
      [Provider.Step.setBaseURL, Provider.Step.setOauthCredentials,
       Provider.Step.setUserAgent, Provider.Step.sessionsGet,
       Provider.Step.classifyWorkspace, Provider.Step.createDevConnection] :=
  dev_connection_failure_fatal_no_rollback Provider.apiDevFail Provider.dW ("1.0")
    ⟨("production")⟩ ("boom") rfl rfl rfl rfl (Or.inl rfl) rfl

/-- C7: providerConfigure never reveals the client secret: two runs that
differ only in the client_secret value, with the credential exchange
reaching the same outcome, produce identical results — in particular the
same debug log lines and the same printed dev-connection output — and the
client_secret schema entry is the one marked Sensitive. -/
theorem client_secret_never_logged (api : Provider.LookerApi)
    (d : Provider.ResourceData) (v s1 s2 : String)
    (h : api.setOauthResult d.client_id s1 = api.setOauthResult d.client_id s2) :
    Provider.providerConfigure api { d with client_secret := s1 } v =
      Provider.providerConfigure api { d with client_secret := s2 } v ∧
    Provider.clientSecretSchema.sensitive = true := by
  constructor
  · simp [Provider.providerConfigure, h]
  · rfl

/-- C7 witness: two concrete runs differing only in the secret coincide. -/
theorem client_secret_never_logged_witness :
    Provider.providerConfigure Provider.apiOkBase
        { Provider.dW with client_secret := ("s1") } ("1.0") =
      Provider.providerConfigure Provider.apiOkBase
        { Provider.dW with client_secret := ("s2") } ("1.0") ∧
    Provider.clientSecretSchema.sensitive = true :=
  client_secret_never_logged Provider.apiOkBase Provider.dW ("1.0") ("s1") ("s2") rfl

/-- Decoding a JSON string array built from a string list recovers the
list. -/
theorem filterMap_asString_comp_str (ms : List String) :
    List.filterMap (Lookergo.Json.asString ∘ Lookergo.Json.str) ms = ms := by
  induction ms with
  | nil => rfl
  | cons x xs ih => simp [Lookergo.Json.asString, Function.comp, ih]

/-- C8: the ModelSet JSON wire shape has exactly the five keys built_in,
id, all_access, models and name: the struct tags list them in order,
every emitted key is one of the five, a fully populated ModelSet emits
exactly the five, and the models field encodes as the array of the
Models strings. -/
theorem modelSet_wire_shape (m : Lookergo.ModelSet) (k : String) :
    Lookergo.modelSetFieldTags.map Lookergo.FieldTag.jsonKey =
      [("built_in"), ("id"), ("all_access"), ("models"), ("name")] ∧
    (k ∈ (Lookergo.ModelSet.marshalFields m).map Prod.fst →
      k ∈ [("built_in"), ("id"), ("all_access"), ("models"), ("name")]) ∧
    Lookergo.ModelSet.marshalFields Lookergo.fullModelSet =
      [(("built_in"), Lookergo.Json.bool true),
       (("id"), Lookergo.Json.str ("x")),
       (("all_access"), Lookergo.Json.bool true),
       (("models"), Lookergo.Json.arr [Lookergo.Json.str ("m1")]),
       (("name"), Lookergo.Json.str ("n"))] ∧
    (m.Models ≠ [] →
      (("models"), Lookergo.Json.arr (m.Models.map Lookergo.Json.str)) ∈
        Lookergo.ModelSet.marshalFields m) := by
  refine ⟨rfl, ?_, ?_, ?_⟩
  · intro hk
    by_cases h1 : m.BuiltIn = true <;>
      by_cases h2 : m.Id = "" <;>
        by_cases h3 : m.AllAccess = true <;>
          by_cases h4 : m.Models = [] <;>
            by_cases h5 : m.Name = "" <;>
              (simp_all [Lookergo.ModelSet.marshalFields] ; try tauto)
  · simp [Lookergo.ModelSet.marshalFields, Lookergo.fullModelSet]
  · intro hM
    simp [Lookergo.ModelSet.marshalFields, hM]

/-- C8 witness: the key id is among the five, and the populated sample
emits its models array. -/
theorem modelSet_wire_shape_witness :
    ("id") ∈ [("built_in"), ("id"), ("all_access"), ("models"), ("name")] ∧
    (("models"), Lookergo.Json.arr (Lookergo.fullModelSet.Models.map Lookergo.Json.str)) ∈
      Lookergo.ModelSet.marshalFields Lookergo.fullModelSet :=
  ⟨(modelSet_wire_shape Lookergo.fullModelSet ("id")).2.1 (by decide),
   (modelSet_wire_shape Lookergo.fullModelSet ("id")).2.2.2 (by decide)⟩

/-- C10: every ModelSet field carries omitempty, the all-zero ModelSet
encodes as the empty JSON object, decoding the empty object yields the
zero value again, and the encode-then-decode round trip is the identity,
so an explicit false or empty field is indistinguishable from an absent
one after a round trip. -/
theorem modelSet_omitempty_round_trip (m : Lookergo.ModelSet) :
    Lookergo.modelSetFieldTags.all (fun t => t.omitempty) = true ∧
    Lookergo.ModelSet.marshalFields Lookergo.ModelSet.zero = [] ∧
    Lookergo.ModelSet.unmarshalFields
        (Lookergo.ModelSet.marshalFields Lookergo.ModelSet.zero) =
      Lookergo.ModelSet.unmarshalFields [] ∧
    Lookergo.ModelSet.unmarshalFields [] = Lookergo.ModelSet.zero ∧
    Lookergo.ModelSet.unmarshalFields (Lookergo.ModelSet.marshalFields m) = m := by
  refine ⟨rfl, rfl, rfl, rfl, ?_⟩
  obtain ⟨b, i, a, ms, n⟩ := m
  cases b <;> by_cases hi : i = "" <;> cases a <;> by_cases hms : ms = [] <;>
    by_cases hn : n = "" <;>
    simp_all [Lookergo.ModelSet.marshalFields, Lookergo.ModelSet.unmarshalFields,
      Lookergo.lookupField, List.find?, filterMap_asString_comp_str]
